import Mathlib

/-!
Verification of the `smelt` example native extension
(`examples/hatchdemo/src/hatchdemo/hello.c`).

The C source defines:
* `hello(self, args)` — returns `PyUnicode_FromString("Hello World!")`;
* `HelloMethods` — a method table with the single entry
  `{"hello", hello, METH_NOARGS, "Returns a greeting."}` followed by the
  `{NULL, NULL, 0, NULL}` sentinel;
* `hellomodule` — a module definition named `"hello"` with `NULL` doc,
  per-interpreter state size `-1`, and `HelloMethods` as its table;
* `PyInit_hello` — returns `PyModule_Create(&hellomodule)`.

The embedding makes the host state explicit: an allocator that may be
exhausted, a table of module-level globals, and an output log for I/O.
`PyUnicode_FromString` returns `NULL` (here `Option.none`) exactly when
the allocator is exhausted, and otherwise a fresh string object; in
neither case does it change any observable program state.
-/

/-- Python object values relevant to this module. `nullPtr` models the C
`NULL` pointer (e.g. the `args` slot of a `METH_NOARGS` call). -/
inductive PyObject where
  | str (s : String)
  | noneObj
  | nullPtr
  deriving DecidableEq, Repr

/-- Observable host-interpreter state: whether the allocator can serve a
request, the module-level global bindings, and the output (I/O) log. -/
structure PyState where
  allocOk : Bool
  globals : List (String × PyObject)
  outputLog : List String
  deriving DecidableEq, Repr

/-- `PyUnicode_FromString`: builds a fresh string object from a C literal.
Returns `NULL` (modely `Option.none`) iff allocation fails; never touches
globals or I/O. -/
def PyUnicode_FromString (s : String) (st : PyState) :
    Option PyObject × PyState :=
  if st.allocOk then (Option.some (PyObject.str s), st) else (Option.none, st)

/-- The C function `hello`: ignores `self` and `args` and returns
`PyUnicode_FromString("Hello World!")`. -/
def hello (self args : PyObject) (st : PyState) : Option PyObject × PyState :=
  let _ := self
  let _ := args
  PyUnicode_FromString "Hello World!" st

/-- `METH_VARARGS` flag value from `methodobject.h`. -/
def METH_VARARGS : Nat := 1

/-- `METH_NOARGS` flag value from `methodobject.h`. -/
def METH_NOARGS : Nat := 4

/-- One `PyMethodDef` entry; `Option.none` fields model `NULL` slots of the
sentinel entry. -/
structure PyMethodDef where
  ml_name : Option String
  ml_meth : Option (PyObject → PyObject → PyState → Option PyObject × PyState)
  ml_flags : Nat
  ml_doc : Option String

/-- The live entry of the source's method table:
`{"hello", hello, METH_NOARGS, "Returns a greeting."}`. -/
def helloMethodEntry : PyMethodDef :=
  { ml_name := Option.some "hello"
  , ml_meth := Option.some hello
  , ml_flags := METH_NOARGS
  , ml_doc := Option.some "Returns a greeting." }

/-- The `{NULL, NULL, 0, NULL}` sentinel that terminates the table. -/
def helloSentinel : PyMethodDef :=
  { ml_name := Option.none
  , ml_meth := Option.none
  , ml_flags := 0
  , ml_doc := Option.none }

/-- The method table `HelloMethods` from the source: one real entry binding
the name `"hello"` to the C function `hello` with `METH_NOARGS`, then the
`{NULL, NULL, 0, NULL}` sentinel. -/
def HelloMethods : List PyMethodDef :=
  [helloMethodEntry, helloSentinel]

/-- A `PyModuleDef` (the fields of `struct PyModuleDef` the source sets). -/
structure PyModuleDef where
  m_name : String
  m_doc : Option String
  m_size : Int
  m_methods : List PyMethodDef

/-- The module definition `hellomodule` from the source. -/
def hellomodule : PyModuleDef :=
  { m_name := "hello"
  , m_doc := Option.none
  , m_size := -1
  , m_methods := HelloMethods }

/-- A created module object: its name and its bound method table. -/
structure PyModule where
  name : String
  methods : List PyMethodDef

/-- `PyModule_Create`: materialises a module object from a definition;
fails (returns `NULL`) iff allocation fails. -/
def PyModule_Create (d : PyModuleDef) (st : PyState) :
    Option PyModule × PyState :=
  if st.allocOk then
    (Option.some { name := d.m_name, methods := d.m_methods }, st)
  else (Option.none, st)

/-- `PyInit_hello`: returns `PyModule_Create(&hellomodule)`. -/
def PyInit_hello (st : PyState) : Option PyModule × PyState :=
  PyModule_Create hellomodule st

/-- Attribute lookup on a module object: scan the method table for a live
entry (sentinel entries have a `NULL` name and never match). -/
def moduleGetAttr (m : PyModule) (name : String) : Option PyMethodDef :=
  m.methods.find? (fun d => d.ml_name = Option.some name)

/-- Outcome of invoking a bound method through the host's calling
convention. -/
inductive CallResult where
  | ok (v : PyObject)
  | typeError (msg : String)
  | memoryError
  deriving DecidableEq, Repr

/-- The host dispatcher for a method-table entry (CPython's
`cfunction_call` path restricted to the conventions this module uses):
under `METH_NOARGS`, any positional or keyword argument is rejected with a
`TypeError` before the C function body runs; a zero-argument call invokes
the C function with `args = NULL`. -/
def callMethod (m : PyMethodDef) (self : PyObject)
    (posArgs : List PyObject) (kwArgs : List (String × PyObject))
    (st : PyState) : CallResult × PyState :=
  match m.ml_meth with
  | Option.none => (CallResult.typeError "object is not callable", st)
  | Option.some f =>
    if m.ml_flags = METH_NOARGS then
      if kwArgs ≠ [] then
        (CallResult.typeError "takes no keyword arguments", st)
      else if posArgs ≠ [] then
        (CallResult.typeError "takes no arguments", st)
      else
        match f self PyObject.nullPtr st with
        | (Option.some v, st') => (CallResult.ok v, st')
        | (Option.none, st') => (CallResult.memoryError, st')
    else (CallResult.typeError "unsupported calling convention", st)

/-- `n` back-to-back invocations of `hello` (the spec's loop scenario),
threading the host state through; returns the list of results. -/
def helloRepeat : Nat → PyState → List (Option PyObject) × PyState
  | 0, st => ([], st)
  | Nat.succ n, st =>
    let p := hello PyObject.noneObj PyObject.nullPtr st
    let q := helloRepeat n p.2
    (p.1 :: q.1, q.2)

/-- Control point of the micro-step machine for `hello`'s body: the body
is one call to `PyUnicode_FromString` followed by one `return`. -/
inductive HelloCtrl where
  | start
  | allocated (r : Option PyObject)
  | done (r : Option PyObject)
  deriving DecidableEq, Repr

/-- One micro-step of `hello`'s body; `Option.none` means the control
point is final. There is no loop or recursion: control only advances
`start → allocated → done`. -/
def helloStep (c : HelloCtrl) (st : PyState) :
    Option (HelloCtrl × PyState) :=
  match c with
  | HelloCtrl.start =>
    let p := PyUnicode_FromString "Hello World!" st
    Option.some (HelloCtrl.allocated p.1, p.2)
  | HelloCtrl.allocated r => Option.some (HelloCtrl.done r, st)
  | HelloCtrl.done _ => Option.none

/-- Run the micro-step machine for at most `fuel` steps. -/
def helloRun : Nat → HelloCtrl → PyState → HelloCtrl × PyState
  | 0, c, st => (c, st)
  | Nat.succ n, c, st =>
    match helloStep c st with
    | Option.none => (c, st)
    | Option.some p => helloRun n p.1 p.2

/-- Concurrency model: step thread `i` of a pool of `hello` invocations
over the shared host state (a no-op if `i` is out of range or thread `i`
is already final). -/
def stepThread (ts : List HelloCtrl) (st : PyState) (i : Nat) :
    List HelloCtrl × PyState :=
  match ts.get? i with
  | Option.none => (ts, st)
  | Option.some c =>
    match helloStep c st with
    | Option.none => (ts, st)
    | Option.some p => (ts.set i p.1, p.2)

/-- Run a pool of concurrent `hello` invocations under an arbitrary
interleaving: the schedule lists which thread takes each micro-step. -/
def scheduleRun : List Nat → List HelloCtrl → PyState →
    List HelloCtrl × PyState
  | [], ts, st => (ts, st)
  | i :: rest, ts, st =>
    let p := stepThread ts st i
    scheduleRun rest p.1 p.2

/-- A concrete healthy host state (allocator available, no globals, empty
output log), used to instantiate hypotheses at a concrete input. -/
def st0 : PyState :=
  { allocOk := true, globals := [], outputLog := [] }

/-! ## Helper lemmas -/

theorem pyUnicode_snd (s : String) (st : PyState) :
    (PyUnicode_FromString s st).2 = st := by
  unfold PyUnicode_FromString
  split <;> rfl

theorem hello_snd (self args : PyObject) (st : PyState) :
    (hello self args st).2 = st :=
  pyUnicode_snd _ _

theorem helloRun_done (n : Nat) (r : Option PyObject) (st : PyState) :
    helloRun n (HelloCtrl.done r) st = (HelloCtrl.done r, st) := by
  cases n <;> rfl

/-- Control points a concurrent `hello` thread can reach from `start` when
the allocator is healthy. -/
def okCtrl (c : HelloCtrl) : Prop :=
  c = HelloCtrl.start ∨
  c = HelloCtrl.allocated (Option.some (PyObject.str "Hello World!")) ∨
  c = HelloCtrl.done (Option.some (PyObject.str "Hello World!"))

theorem helloStep_frame (c : HelloCtrl) (st : PyState)
    (p : HelloCtrl × PyState) (h : helloStep c st = Option.some p) :
    p.2 = st := by
  cases c with
  | start =>
    rcases hA : st.allocOk with _ | _ <;>
      simp [helloStep, PyUnicode_FromString, hA] at h <;>
      (subst h; rfl)
  | allocated r =>
    simp [helloStep] at h
    subst h; rfl
  | done r =>
    simp [helloStep] at h

theorem helloStep_ok (c : HelloCtrl) (st : PyState)
    (p : HelloCtrl × PyState) (hA : st.allocOk = true) (hc : okCtrl c)
    (h : helloStep c st = Option.some p) : okCtrl p.1 := by
  rcases hc with rfl | rfl | rfl
  · simp [helloStep, PyUnicode_FromString, hA] at h
    subst h
    exact Or.inr (Or.inl rfl)
  · simp [helloStep] at h
    subst h
    exact Or.inr (Or.inr rfl)
  · simp [helloStep] at h

theorem stepThread_inv (ts : List HelloCtrl) (st : PyState) (i : Nat)
    (hA : st.allocOk = true) (hts : ∀ c ∈ ts, okCtrl c) :
    (stepThread ts st i).2 = st ∧ ∀ c ∈ (stepThread ts st i).1, okCtrl c := by
  cases hget : ts.get? i with
  | none =>
    have e : stepThread ts st i = (ts, st) := by
      unfold stepThread
      rw [hget]
    rw [e]
    exact ⟨rfl, hts⟩
  | some c =>
    have hc : okCtrl c := hts c (List.get?_mem hget)
    cases hstep : helloStep c st with
    | none =>
      have e : stepThread ts st i = (ts, st) := by
        unfold stepThread
        rw [hget]
        show (match helloStep c st with
              | Option.none => (ts, st)
              | Option.some p => (ts.set i p.1, p.2)) = (ts, st)
        rw [hstep]
      rw [e]
      exact ⟨rfl, hts⟩
    | some p =>
      have hfr : p.2 = st := helloStep_frame c st p hstep
      have hok : okCtrl p.1 := helloStep_ok c st p hA hc hstep
      have e : stepThread ts st i = (ts.set i p.1, p.2) := by
        unfold stepThread
        rw [hget]
        show (match helloStep c st with
              | Option.none => (ts, st)
              | Option.some q => (ts.set i q.1, q.2)) = (ts.set i p.1, p.2)
        rw [hstep]
      rw [e]
      refine ⟨hfr, ?_⟩
      intro c' hmem
      rcases List.mem_or_eq_of_mem_set hmem with hm | hm
      · exact hts c' hm
      · exact hm ▸ hok

theorem scheduleRun_inv (sched : List Nat) (ts : List HelloCtrl)
    (st : PyState) (hA : st.allocOk = true)
    (hts : ∀ c ∈ ts, okCtrl c) :
    (scheduleRun sched ts st).2 = st ∧
    ∀ c ∈ (scheduleRun sched ts st).1, okCtrl c := by
  induction sched generalizing ts with
  | nil => exact ⟨rfl, hts⟩
  | cons i rest ih =>
    have hstep := stepThread_inv ts st i hA hts
    have e : scheduleRun (i :: rest) ts st
        = scheduleRun rest (stepThread ts st i).1 (stepThread ts st i).2 := rfl
    rw [e, hstep.1]
    exact ih _ hstep.2

/-! ## Claim theorems -/

/-- C1: every invocation of `hello` (when the host allocator can serve the
request) returns exactly the string `"Hello World!"` — the precise
12-character sequence, byte for byte, with no trailing newline — and
leaves the host state untouched. -/
theorem hello_returns_exact_greeting (self args : PyObject) (st : PyState)
    (hA : st.allocOk = true) :
    hello self args st = (Option.some (PyObject.str "Hello World!"), st) ∧
    ("Hello World!").length = 12 ∧
    ("Hello World!").data =
      ['H', 'e', 'l', 'l', 'o', ' ', 'W', 'o', 'r', 'l', 'd', '!'] ∧
    '\n' ∉ ("Hello World!").data := by
  refine ⟨?_, by decide, by decide, by decide⟩
  simp [hello, PyUnicode_FromString, hA]

/-- Witness for C1 at a concrete healthy state. -/
theorem hello_returns_exact_greeting_witness :
    st0.allocOk = true ∧
    hello PyObject.noneObj PyObject.nullPtr st0 =
      (Option.some (PyObject.str "Hello World!"), st0) :=
  ⟨rfl, (hello_returns_exact_greeting PyObject.noneObj PyObject.nullPtr st0
    rfl).1⟩

/-- C2: `hello` is deterministic and calls do not interact — running `n`
back-to-back invocations from any state yields `n` copies of the result of
the first invocation, and the final state equals the initial one, so no
invocation changes the outcome of any later invocation. -/
theorem hello_repeat_identical (n : Nat) (st : PyState) :
    helloRepeat n st =
      (List.replicate n (hello PyObject.noneObj PyObject.nullPtr st).1,
       st) := by
  induction n with
  | zero => rfl
  | succ k ih =>
    have e : helloRepeat (k + 1) st
        = ((hello PyObject.noneObj PyObject.nullPtr st).1 ::
            (helloRepeat k
              (hello PyObject.noneObj PyObject.nullPtr st).2).1,
           (helloRepeat k
              (hello PyObject.noneObj PyObject.nullPtr st).2).2) := rfl
    rw [e, hello_snd, ih]
    rfl

/-- C3: `hello` has no side effects — the whole observable host state
(allocator, module globals, output/I/O log) after the call equals the
state before it, for every `self`, `args` and starting state. -/
theorem hello_no_side_effects (self args : PyObject) (st : PyState) :
    (hello self args st).2 = st ∧
    (hello self args st).2.globals = st.globals ∧
    (hello self args st).2.outputLog = st.outputLog ∧
    (hello self args st).2.allocOk = st.allocOk := by
  refine ⟨hello_snd self args st, ?_, ?_, ?_⟩ <;> rw [hello_snd]

/-- C4: `hello` has exactly one failure mode — it returns `NULL`
(`Option.none`) iff string allocation fails, the failure propagates to the
caller unhandled, and the host state is unchanged in both the success and
the failure case. -/
theorem hello_fails_iff_alloc_exhausted (self args : PyObject)
    (st : PyState) :
    ((hello self args st).1 = Option.none ↔ st.allocOk = false) ∧
    (hello self args st).2 = st := by
  refine ⟨?_, hello_snd self args st⟩
  rcases hA : st.allocOk with _ | _ <;>
    simp [hello, PyUnicode_FromString, hA]

/-- C5: `PyInit_hello` produces a module named `"hello"` whose method
table binds the callable name `"hello"` to the C function `hello`, so a
host that loads the module reaches that function under the promised
names. -/
theorem init_exposes_hello (st : PyState) (hA : st.allocOk = true) :
    ∃ m : PyModule, PyInit_hello st = (Option.some m, st) ∧
      m.name = "hello" ∧
      moduleGetAttr m "hello" = Option.some helloMethodEntry ∧
      helloMethodEntry.ml_name = Option.some "hello" ∧
      helloMethodEntry.ml_meth = Option.some hello ∧
      helloMethodEntry.ml_flags = METH_NOARGS := by
  refine ⟨{ name := "hello", methods := HelloMethods }, ?_, rfl, ?_, rfl,
    rfl, rfl⟩
  · simp [PyInit_hello, PyModule_Create, hellomodule, hA]
  · rfl

/-- Witness for C5 at a concrete healthy state. -/
theorem init_exposes_hello_witness :
    st0.allocOk = true ∧
    ∃ m : PyModule, PyInit_hello st0 = (Option.some m, st0) ∧
      m.name = "hello" ∧
      moduleGetAttr m "hello" = Option.some helloMethodEntry ∧
      helloMethodEntry.ml_name = Option.some "hello" ∧
      helloMethodEntry.ml_meth = Option.some hello ∧
      helloMethodEntry.ml_flags = METH_NOARGS :=
  ⟨rfl, init_exposes_hello st0 rfl⟩

/-- C6: the exposed callable accepts exactly zero arguments — the
zero-argument call through the dispatcher returns the greeting, while any
positional or keyword arguments are rejected with a `TypeError` by the
`METH_NOARGS` calling convention before the C function body runs (the
rejection holds for an arbitrary bound function, so the body is never
consulted). -/
theorem noargs_calling_convention (st : PyState) (self : PyObject)
    (hA : st.allocOk = true) :
    callMethod helloMethodEntry self [] [] st =
      (CallResult.ok (PyObject.str "Hello World!"), st) ∧
    (∀ (e : PyMethodDef)
       (g : PyObject → PyObject → PyState → Option PyObject × PyState)
       (posArgs : List PyObject),
       e.ml_flags = METH_NOARGS → e.ml_meth = Option.some g →
       posArgs ≠ [] →
       callMethod e self posArgs [] st =
         (CallResult.typeError "takes no arguments", st)) ∧
    (∀ (e : PyMethodDef)
       (g : PyObject → PyObject → PyState → Option PyObject × PyState)
       (posArgs : List PyObject) (kwArgs : List (String × PyObject)),
       e.ml_flags = METH_NOARGS → e.ml_meth = Option.some g →
       kwArgs ≠ [] →
       callMethod e self posArgs kwArgs st =
         (CallResult.typeError "takes no keyword arguments", st)) := by
  refine ⟨?_, ?_, ?_⟩
  · simp [callMethod, helloMethodEntry, hello, PyUnicode_FromString, hA]
  · intro e g posArgs hf hm hp
    simp [callMethod, hm, hf, hp]
  · intro e g posArgs kwArgs hf hm hk
    simp [callMethod, hm, hf, hk]

/-- Witness for C6 at a concrete healthy state: the zero-argument call
succeeds and a one-argument call is rejected. -/
theorem noargs_calling_convention_witness :
    st0.allocOk = true ∧
    callMethod helloMethodEntry PyObject.noneObj [] [] st0 =
      (CallResult.ok (PyObject.str "Hello World!"), st0) ∧
    callMethod helloMethodEntry PyObject.noneObj [PyObject.noneObj] [] st0 =
      (CallResult.typeError "takes no arguments", st0) :=
  ⟨rfl, (noargs_calling_convention st0 PyObject.noneObj rfl).1,
   (noargs_calling_convention st0 PyObject.noneObj rfl).2.1 helloMethodEntry
     hello [PyObject.noneObj] rfl rfl (by simp)⟩

/-- C7: `hello` ignores its inputs — for all values of `self` and `args`
it returns the same result on the same host state. -/
theorem hello_ignores_inputs (self1 args1 self2 args2 : PyObject)
    (st : PyState) :
    hello self1 args1 st = hello self2 args2 st := rfl

/-- C8: `hello` terminates unconditionally in a bounded number of steps —
its micro-step machine reaches the final control point after exactly two
steps from any state, yielding `hello`'s result, for every fuel bound of
at least 2 (there is no loop, recursion, blocking or suspension point). -/
theorem hello_terminates_in_two_steps (st : PyState) (fuel : Nat)
    (hf : 2 ≤ fuel) :
    helloRun fuel HelloCtrl.start st =
      (HelloCtrl.done (hello PyObject.noneObj PyObject.nullPtr st).1,
       st) := by
  obtain ⟨k, rfl⟩ : ∃ k, fuel = k + 2 := ⟨fuel - 2, by omega⟩
  have e : helloRun (k + 2) HelloCtrl.start st
      = helloRun k
          (HelloCtrl.done (PyUnicode_FromString "Hello World!" st).1)
          (PyUnicode_FromString "Hello World!" st).2 := rfl
  rw [e, helloRun_done, pyUnicode_snd]
  rfl

/-- Witness for C8 at a concrete state and fuel bound. -/
theorem hello_terminates_in_two_steps_witness :
    2 ≤ 2 ∧
    helloRun 2 HelloCtrl.start st0 =
      (HelloCtrl.done (Option.some (PyObject.str "Hello World!")), st0) :=
  ⟨Nat.le_refl 2, by
    rw [hello_terminates_in_two_steps st0 2 (Nat.le_refl 2)]
    rfl⟩

/-- C9: concurrent invocations of `hello` are safe — under any
interleaving of any number of threads each running `hello`'s micro-step
machine over the shared host state, the shared state is never changed
(no micro-step writes it, so no data race is possible) and every thread
that completes returns exactly `"Hello World!"`. -/
theorem hello_concurrent_safe (sched : List Nat) (n : Nat) (st : PyState)
    (hA : st.allocOk = true) :
    (scheduleRun sched (List.replicate n HelloCtrl.start) st).2 = st ∧
    (∀ c ∈ (scheduleRun sched (List.replicate n HelloCtrl.start) st).1,
      ∀ r, c = HelloCtrl.done r →
        r = Option.some (PyObject.str "Hello World!")) ∧
    (∀ (c : HelloCtrl) (p : HelloCtrl × PyState),
      helloStep c st = Option.some p → p.2 = st) := by
  have base : ∀ c ∈ List.replicate n HelloCtrl.start, okCtrl c := by
    intro c hc
    rw [List.eq_of_mem_replicate hc]
    exact Or.inl rfl
  have h := scheduleRun_inv sched (List.replicate n HelloCtrl.start) st hA
    base
  refine ⟨h.1, ?_, fun c p hp => helloStep_frame c st p hp⟩
  intro c hc r hr
  rcases h.2 c hc with h1 | h1 | h1
  · rw [h1] at hr
    simp at hr
  · rw [h1] at hr
    simp at hr
  · rw [h1] at hr
    injection hr with h2
    exact h2.symm

/-- Witness for C9: two threads under a concrete interleaving leave the
shared state unchanged. -/
theorem hello_concurrent_safe_witness :
    st0.allocOk = true ∧
    (scheduleRun [0, 1, 0, 1] (List.replicate 2 HelloCtrl.start) st0).2 =
      st0 :=
  ⟨rfl, (hello_concurrent_safe [0, 1, 0, 1] 2 st0 rfl).1⟩

/-- C10: the module exposes exactly one callable and carries no module
state — the method table is exactly the `"hello"` entry followed by the
all-`NULL` sentinel (one live entry), and the module definition declares
per-interpreter state size `-1`. -/
theorem module_single_callable_no_state :
    hellomodule.m_name = "hello" ∧
    hellomodule.m_size = -1 ∧
    hellomodule.m_doc = Option.none ∧
    hellomodule.m_methods = HelloMethods ∧
    HelloMethods = [helloMethodEntry, helloSentinel] ∧
    helloSentinel.ml_name = Option.none ∧
    helloSentinel.ml_meth = Option.none ∧
    helloSentinel.ml_flags = 0 ∧
    helloSentinel.ml_doc = Option.none ∧
    (HelloMethods.filter (fun d => d.ml_name.isSome)).length = 1 :=
  ⟨rfl, rfl, rfl, rfl, rfl, rfl, rfl, rfl, rfl, rfl⟩
